import Mathlib

/-!
Shallow embedding of `src/storage/TransactionProvider.tsx` (a React context
provider exposing wallet transaction helpers) and of the appended
network-color hook, from the jordaaash/wallet-app repository.

External SDK behavior (`@helium/crypto-react-native`, `@helium/currency`,
`@helium/transactions`, and the app's `encodeMemoString`) is modelled
abstractly through an `Sdk` record of uninterpreted functions; the helpers
of this repository are translated faithfully on top of it.  Asynchronous
effects are modelled by an environment record (`Env`) holding the results
the awaited calls would produce, and each helper additionally returns the
ordered list of effectful steps it performed (`Step`), so that claims about
the sequence "fetch keypair / fetch account / construct / sign" are
statable.  Thrown JS exceptions are modelled with `Except String`.
-/

/-- A b58 address as produced by `Address.fromB58`.  The SDK `Address`
object is modelled by the b58 string it wraps (`.b58` recovers it). -/
structure Address where
  b58 : String
deriving DecidableEq, Repr

/-- `Address.fromB58` of the SDK: wraps the given b58 string. -/
def Address.fromB58 (s : String) : Address := ⟨s⟩

/-- `EMPTY_B58_ADDRESS` from the top of `TransactionProvider.tsx`. -/
def EMPTY_B58_ADDRESS : Address :=
  Address.fromB58 "13PuqyWXzPYeXcF1B9ZRx7RLkEygeL374ZABiQdwRSNzASdA1sn"

/-- A keypair from secure storage; only its `.address` is read here. -/
structure Keypair where
  address : Address
deriving DecidableEq, Repr

/-- A currency balance; the code only reads `.integerBalance`. -/
structure Balance where
  integerBalance : Int
deriving DecidableEq, Repr

/-- `SendDetails` from `TransactionProvider.tsx`. -/
structure SendDetails where
  payee : String
  balanceAmount : Balance
  memo : String
deriving DecidableEq, Repr

/-- One payment entry of a `PaymentV2` transaction: the SDK constructor is
called with a decoded payee address, an integer amount, and an (optionally
undefined) encoded memo. -/
structure Payment where
  payee : Address
  amount : Int
  memo : Option String
deriving DecidableEq, Repr

/-- The `PaymentV2` transaction object as constructed by this code: payer,
payments, nonce.  Its fee is SDK-computed (see `Sdk.paymentFee`). -/
structure PaymentV2 where
  payer : Option Address
  payments : List Payment
  nonce : Option Int
deriving DecidableEq, Repr

/-- The SDK reports `'payment_v2'` as the `type` of every `PaymentV2`. -/
def PaymentV2.type (_ : PaymentV2) : String := "payment_v2"

/-- The `TokenBurnV1` transaction object as constructed by `makeBurnTxn`. -/
structure TokenBurnV1 where
  payer : Address
  payee : Address
  amount : Int
  nonce : Int
  memo : String
deriving DecidableEq, Repr

/-- Result of `txn.sign({ payer })` on a `PaymentV2`: the SDK signs the
transaction and returns it with a signature attached, all constructor
fields unchanged. -/
structure SignedPaymentV2 where
  txn : PaymentV2
  signature : String
deriving DecidableEq, Repr

/-- Result of `tokenBurnTxn.sign({ payer })`. -/
structure SignedTokenBurnV1 where
  txn : TokenBurnV1
  signature : String
deriving DecidableEq, Repr

/-- One entry of the `txnJson.payments` list built in `makePaymentTxn`
(payee rendered back to its b58 string). -/
structure PartialPayment where
  payee : String
  memo : Option String
  amount : Int
deriving DecidableEq, Repr

/-- The `PartialPaymentTxn` plain record of `TransactionProvider.tsx`. -/
structure PartialPaymentTxn where
  type : String
  payments : List PartialPayment
  payer : Option String
  nonce : Option Int
  fee : Option Int
deriving DecidableEq, Repr

/-- The pair `{ partialTxn, signedTxn }` returned by `makePaymentTxn`
(the partial record is the local `txnJson`). -/
structure PaymentTxnResult where
  txnJson : PartialPaymentTxn
  signedTxn : SignedPaymentV2
deriving DecidableEq, Repr

/-- The GraphQL `account` object; `speculativeNonce` and `nonce` are the
two fields this code reads, each possibly absent (`null`/missing in JS,
which is what `typeof x !== 'number'` and `x || 0` guard against). -/
structure Account where
  speculativeNonce : Option Int
  nonce : Option Int
deriving DecidableEq, Repr

/-- A GraphQL query result `{ data: { account? } }` (the `data` wrapper
itself may be absent, hence `Option AccountData` at use sites). -/
structure AccountData where
  account : Option Account
deriving DecidableEq, Repr

/-- The `currentAccount` from `useAccountStorage`; only `.address` is
read by this code. -/
structure CurrentAccount where
  address : String
deriving DecidableEq, Repr

/-- The external SDK and app functions this file delegates to, left
uninterpreted: b58 validity, memo encoding (`encodeMemoString` may return
undefined), the fee the SDK computes for a constructed `PaymentV2`
(undefined until configured), and the signatures produced by `sign`. -/
structure Sdk where
  isValid : String → Bool
  encodeMemoString : String → Option String
  paymentFee : PaymentV2 → Option Int
  paymentSignature : Keypair → PaymentV2 → String
  burnSignature : Keypair → TokenBurnV1 → String

/-- Snapshot of the awaited effects available to one invocation of the
hook's helpers: the keypair `getKeypair()` resolves to, the result of the
network `fetchAccount()` lazy query, the cache-only `useAccountQuery`
data, and the `currentAccount` from account storage. -/
structure Env where
  sdk : Sdk
  getKeypair : Option Keypair
  freshAccountData : Option AccountData
  accountData : Option AccountData
  currentAccount : Option CurrentAccount

/-- Effectful steps a helper can perform, in order: awaiting
`getKeypair()`, awaiting the network `fetchAccount()`, constructing an SDK
transaction object, and asking the SDK to sign it. -/
inductive Step where
  | fetchKeypair
  | fetchAccount
  | constructTxn
  | sign
deriving DecidableEq, Repr

/-- `data?.account?.speculativeNonce` optional chain. -/
def speculativeNonceOf (d : Option AccountData) : Option Int :=
  (d.bind AccountData.account).bind Account.speculativeNonce

/-- `data?.account?.nonce` optional chain. -/
def cachedNonceOf (d : Option AccountData) : Option Int :=
  (d.bind AccountData.account).bind Account.nonce

/-- Truthiness of `!currentAccount?.address`: the guard in
`calculatePaymentTxnFee` fires when there is no current account or its
address is the empty string (JS falsiness). -/
def currentAccountUnset (env : Env) : Bool :=
  match env.currentAccount with
  | none => true
  | some a => a.address == ""

/-- `Except.isError`-style discriminator for thrown errors. -/
def exceptIsError {α : Type} (e : Except String α) : Bool :=
  match e with
  | Except.error _ => true
  | Except.ok _ => false

/-- Arguments of `makeBurnTxn`.  `dcPayloadSize`/`txnFeeMultiplier` feed a
`Transaction.config` call that mutates global SDK fee configuration; no
burn fee is read in this file, so the config mutation has no observable
effect in the modelled scope. -/
structure BurnArgs where
  amount : Int
  payeeB58 : String
  nonce : Int
  memo : String
  dcPayloadSize : Option Int
  txnFeeMultiplier : Option Int
deriving DecidableEq, Repr

/-- The payment entry `makePaymentTxn` builds from one `SendDetails`:
`payee: Address.fromB58(address), amount: balanceAmount.integerBalance,
memo: encodeMemoString(memo)`. -/
def paymentFromDetails (sdk : Sdk) (d : SendDetails) : Payment :=
  { payee := Address.fromB58 d.payee
    amount := d.balanceAmount.integerBalance
    memo := sdk.encodeMemoString d.memo }

/-- The payment entry `calculatePaymentTxnFee` builds from one
`SendDetails`: as `paymentFromDetails`, except that an empty or invalid
payee string is replaced by the dummy `EMPTY_B58_ADDRESS`
(`address && Address.isValid(address) ? Address.fromB58(address) :
EMPTY_B58_ADDRESS`). -/
def feePaymentFromDetails (sdk : Sdk) (d : SendDetails) : Payment :=
  { payee :=
      if d.payee != "" && sdk.isValid d.payee then Address.fromB58 d.payee
      else EMPTY_B58_ADDRESS
    amount := d.balanceAmount.integerBalance
    memo := sdk.encodeMemoString d.memo }

/-- `makeBurnTxn`: await `getKeypair()` (throwing `'missing keypair'` when
it yields nothing), decode the payee, construct a `TokenBurnV1` from the
arguments, and sign it.  It performs no account fetch: the nonce is a
caller-supplied argument. -/
def makeBurnTxn (env : Env) (args : BurnArgs) :
    List Step × Except String SignedTokenBurnV1 :=
  match env.getKeypair with
  | none => ([Step.fetchKeypair], Except.error "missing keypair")
  | some keypair =>
    let payee := Address.fromB58 args.payeeB58
    let tokenBurnTxn : TokenBurnV1 :=
      { payer := keypair.address
        payee := payee
        amount := args.amount
        nonce := args.nonce
        memo := args.memo }
    ([Step.fetchKeypair, Step.constructTxn, Step.sign],
     Except.ok
       { txn := tokenBurnTxn
         signature := env.sdk.burnSignature keypair tokenBurnTxn })

/-- `makePaymentTxn`: await `getKeypair()` (throwing `'missing keypair'`),
await the network `fetchAccount()` and throw unless
`freshAccountData?.account?.speculativeNonce` is a number, construct a
`PaymentV2` with nonce `speculativeNonce + 1`, capture the plain
`txnJson` record from the constructed transaction, sign it, and return
both. -/
def makePaymentTxn (env : Env) (paymentDetails : List SendDetails) :
    List Step × Except String PaymentTxnResult :=
  match env.getKeypair with
  | none => ([Step.fetchKeypair], Except.error "missing keypair")
  | some keypair =>
    match speculativeNonceOf env.freshAccountData with
    | none =>
      ([Step.fetchKeypair, Step.fetchAccount],
       Except.error "Could not find speculative nonce for the current account")
    | some speculativeNonce =>
      let txn : PaymentV2 :=
        { payer := some keypair.address
          payments := paymentDetails.map (paymentFromDetails env.sdk)
          nonce := some (speculativeNonce + 1) }
      let txnJson : PartialPaymentTxn :=
        { type := txn.type
          payments := txn.payments.map fun p =>
            { payee := p.payee.b58, memo := p.memo, amount := p.amount }
          payer := txn.payer.map Address.b58
          nonce := txn.nonce
          fee := env.sdk.paymentFee txn }
      let signedTxn : SignedPaymentV2 :=
        { txn := txn, signature := env.sdk.paymentSignature keypair txn }
      ([Step.fetchKeypair, Step.fetchAccount, Step.constructTxn, Step.sign],
       Except.ok { txnJson := txnJson, signedTxn := signedTxn })

/-- The fee-estimate `PaymentV2` constructed by `calculatePaymentTxnFee`:
payer decoded from the current account's address, payments with dummy
substitution for empty/invalid payees, nonce
`(accountData?.account?.nonce || 0) + 1` from the cache-only query. -/
def feeTxnOf (sdk : Sdk) (accountData : Option AccountData)
    (payerB58 : String) (details : List SendDetails) : PaymentV2 :=
  { payer := some (Address.fromB58 payerB58)
    payments := details.map (feePaymentFromDetails sdk)
    nonce := some ((cachedNonceOf accountData).getD 0 + 1) }

/-- `calculatePaymentTxnFee`: throw when `!currentAccount?.address`,
otherwise construct the fee-estimate `PaymentV2` and return
`new Balance(paymentTxn.fee || 0, CurrencyType.dataCredit)`.  No keypair
is fetched, no network account fetch happens (the account data comes from
the cache-only query captured by the hook), and nothing is signed. -/
def calculatePaymentTxnFee (env : Env) (details : List SendDetails) :
    List Step × Except String Balance :=
  match env.currentAccount with
  | none =>
    ([], Except.error "Cannot calculate payment txn fee. Current account not found")
  | some a =>
    if a.address == "" then
      ([], Except.error "Cannot calculate payment txn fee. Current account not found")
    else
      let paymentTxn := feeTxnOf env.sdk env.accountData a.address details
      ([Step.constructTxn],
       Except.ok { integerBalance := (env.sdk.paymentFee paymentTxn).getD 0 })

/-- `NetTypes.NetType` of `@helium/address` (MAINNET / TESTNET). -/
inductive NetType where
  | mainnet
  | testnet
deriving DecidableEq, Repr

/-- The appended color-selection hook (default export): TESTNET wins over
everything (muted picks `'lividBrown'`, else `'testnet'`); otherwise a
`'solana'` l1Network picks `'solanaPurple'`; otherwise the given
`defaultColor` if any; otherwise undefined.  `muted` is an optional
boolean, truthy only when present and true. -/
def useNetworkColor (l1Network : String) (netType : Option NetType)
    (defaultColor : Option String) (muted : Option Bool) : Option String :=
  if netType = some NetType.testnet then
    if muted.getD false then some "lividBrown" else some "testnet"
  else if l1Network == "solana" then some "solanaPurple"
  else defaultColor

-- Concrete instantiations used by witnesses and counterexamples.

/-- A concrete SDK instantiation for evaluating witnesses. -/
def sdk0 : Sdk :=
  { isValid := fun _ => true
    encodeMemoString := fun s => some s
    paymentFee := fun _ => some 35000
    paymentSignature := fun _ _ => "sig"
    burnSignature := fun _ _ => "sig" }

/-- A concrete SDK whose fee computation yields nothing. -/
def sdkNoFee : Sdk :=
  { isValid := fun _ => true
    encodeMemoString := fun s => some s
    paymentFee := fun _ => none
    paymentSignature := fun _ _ => "sig"
    burnSignature := fun _ _ => "sig" }

def kp0 : Keypair := { address := Address.fromB58 "payer-b58" }

def acc0 : Account := { speculativeNonce := some 5, nonce := some 3 }

/-- An environment where every awaited effect succeeds. -/
def envOk : Env :=
  { sdk := sdk0
    getKeypair := some kp0
    freshAccountData := some { account := some acc0 }
    accountData := some { account := some acc0 }
    currentAccount := some { address := "current-b58" } }

/-- Like `envOk` but `getKeypair()` yields nothing. -/
def envNoKp : Env :=
  { envOk with getKeypair := none }

/-- Keypair present and fresh speculative nonce numeric, but no current
account in storage. -/
def envNoCurrent : Env :=
  { envOk with currentAccount := none }

/-- Like `envOk` but the cache-only account query has no data. -/
def envNoCache : Env :=
  { envOk with accountData := none }

/-- Like `envOk` but the SDK computes no fee. -/
def envNoFee : Env :=
  { envOk with sdk := sdkNoFee }

def d0 : SendDetails :=
  { payee := "payee-b58", balanceAmount := { integerBalance := 100 }, memo := "memo" }

/-- A details entry whose payee string is empty (falsy in JS). -/
def dEmpty : SendDetails :=
  { payee := "", balanceAmount := { integerBalance := 1 }, memo := "m" }

def bargs0 : BurnArgs :=
  { amount := 2, payeeB58 := "burn-payee", nonce := 7, memo := "bm"
    dcPayloadSize := none, txnFeeMultiplier := none }

/-- The value `makePaymentTxn envOk [d0]` succeeds with. -/
def res0 : PaymentTxnResult :=
  { txnJson :=
      { type := "payment_v2"
        payments := [{ payee := "payee-b58", memo := some "memo", amount := 100 }]
        payer := some "payer-b58"
        nonce := some 6
        fee := some 35000 }
    signedTxn :=
      { txn :=
          { payer := some (Address.fromB58 "payer-b58")
            payments :=
              [{ payee := Address.fromB58 "payee-b58", amount := 100, memo := some "memo" }]
            nonce := some 6 }
        signature := "sig" } }

/-- The value `makePaymentTxn envOk [d0, dEmpty]` succeeds with. -/
def res2 : PaymentTxnResult :=
  { txnJson :=
      { type := "payment_v2"
        payments :=
          [{ payee := "payee-b58", memo := some "memo", amount := 100 },
           { payee := "", memo := some "m", amount := 1 }]
        payer := some "payer-b58"
        nonce := some 6
        fee := some 35000 }
    signedTxn :=
      { txn :=
          { payer := some (Address.fromB58 "payer-b58")
            payments :=
              [{ payee := Address.fromB58 "payee-b58", amount := 100, memo := some "memo" },
               { payee := Address.fromB58 "", amount := 1, memo := some "m" }]
            nonce := some 6 }
        signature := "sig" } }

/-- The value `makeBurnTxn envOk bargs0` succeeds with. -/
def sb0 : SignedTokenBurnV1 :=
  { txn :=
      { payer := Address.fromB58 "payer-b58"
        payee := Address.fromB58 "burn-payee"
        amount := 2
        nonce := 7
        memo := "bm" }
    signature := "sig" }

/-- C1: the claim says the three helpers throw for exactly two conditions
(missing keypair, non-numeric nonce from an account query) and never
otherwise.  Counterexample: with a keypair present and a numeric fresh
speculative nonce, `calculatePaymentTxnFee` still throws because the
current account is unset — a third, distinct condition. -/
theorem C1_counterexample :
    envNoCurrent.getKeypair = some kp0 ∧
    speculativeNonceOf envNoCurrent.freshAccountData = some 5 ∧
    (calculatePaymentTxnFee envNoCurrent []).2 =
      Except.error "Cannot calculate payment txn fee. Current account not found" :=
  ⟨rfl, rfl, rfl⟩

/-- C1 (amended): the exact error conditions of the three helpers.
`makeBurnTxn` throws exactly when the keypair is missing; `makePaymentTxn`
exactly when the keypair is missing or the fresh account query lacks a
numeric speculative nonce; `calculatePaymentTxnFee` exactly when the
current account address is unset — and never for a missing keypair or
missing nonce data. -/
theorem C1_error_conditions (env : Env) (bargs : BurnArgs) (details : List SendDetails) :
    exceptIsError (makeBurnTxn env bargs).2 = env.getKeypair.isNone ∧
    exceptIsError (makePaymentTxn env details).2 =
      (env.getKeypair.isNone || (speculativeNonceOf env.freshAccountData).isNone) ∧
    exceptIsError (calculatePaymentTxnFee env details).2 = currentAccountUnset env := by
  refine ⟨?_, ?_, ?_⟩
  · cases hk : env.getKeypair <;> simp [makeBurnTxn, hk, exceptIsError]
  · cases hk : env.getKeypair <;>
      cases hn : speculativeNonceOf env.freshAccountData <;>
        simp [makePaymentTxn, hk, hn, exceptIsError]
  · cases hc : env.currentAccount with
    | none => simp [calculatePaymentTxnFee, hc, currentAccountUnset, exceptIsError]
    | some a =>
      simp only [calculatePaymentTxnFee, hc, currentAccountUnset]
      split <;> simp_all [exceptIsError]

/-- C2: the claim says payees, amounts, and memos are forwarded verbatim
into the SDK constructors.  Counterexample: a successful
`calculatePaymentTxnFee` call whose details carry an empty payee string
constructs a payment whose payee is not the given payee — the dummy
`EMPTY_B58_ADDRESS` is substituted. -/
theorem C2_counterexample :
    exceptIsError (calculatePaymentTxnFee envOk [dEmpty]).2 = false ∧
    (feeTxnOf envOk.sdk envOk.accountData "current-b58" [dEmpty]).payments.map Payment.payee ≠
      [Address.fromB58 dEmpty.payee] := by
  refine ⟨rfl, ?_⟩
  decide

/-- C2 (amended): `makeBurnTxn` forwards amount, nonce and memo unchanged
and the payee through `Address.fromB58`; `makePaymentTxn` forwards each
payee through `Address.fromB58`, each amount through `.integerBalance`,
and each memo through `encodeMemoString`; `calculatePaymentTxnFee` does
the same except that an empty or invalid payee is replaced by
`EMPTY_B58_ADDRESS`. -/
theorem C2_forwarding (env : Env) (bargs : BurnArgs) (details : List SendDetails)
    (kp : Keypair) (sb : SignedTokenBurnV1) (r : PaymentTxnResult) (addr : String) :
    (env.getKeypair = some kp → (makeBurnTxn env bargs).2 = Except.ok sb →
      sb.txn.payer = kp.address ∧ sb.txn.payee = Address.fromB58 bargs.payeeB58 ∧
      sb.txn.amount = bargs.amount ∧ sb.txn.nonce = bargs.nonce ∧
      sb.txn.memo = bargs.memo) ∧
    ((makePaymentTxn env details).2 = Except.ok r →
      r.signedTxn.txn.payments = details.map fun d =>
        { payee := Address.fromB58 d.payee
          amount := d.balanceAmount.integerBalance
          memo := env.sdk.encodeMemoString d.memo }) ∧
    ((feeTxnOf env.sdk env.accountData addr details).payments = details.map fun d =>
      { payee :=
          if d.payee != "" && env.sdk.isValid d.payee then Address.fromB58 d.payee
          else EMPTY_B58_ADDRESS
        amount := d.balanceAmount.integerBalance
        memo := env.sdk.encodeMemoString d.memo }) := by
  refine ⟨?_, ?_, ?_⟩
  · intro hk hok
    rw [makeBurnTxn, hk] at hok
    simp only [Except.ok.injEq] at hok
    subst hok
    exact ⟨rfl, rfl, rfl, rfl, rfl⟩
  · intro hok
    cases hk : env.getKeypair with
    | none => rw [makePaymentTxn, hk] at hok; exact absurd hok (by simp)
    | some keypair =>
      cases hn : speculativeNonceOf env.freshAccountData with
      | none => rw [makePaymentTxn, hk, hn] at hok; exact absurd hok (by simp)
      | some n =>
        rw [makePaymentTxn, hk, hn] at hok
        simp only [Except.ok.injEq] at hok
        subst hok
        rfl
  · rfl

/-- C2 (amended) witness: concrete burn and payment calls succeed and the
forwarding equations hold for them. -/
theorem C2_forwarding_witness :
    (sb0.txn.payer = kp0.address ∧ sb0.txn.payee = Address.fromB58 bargs0.payeeB58 ∧
      sb0.txn.amount = bargs0.amount ∧ sb0.txn.nonce = bargs0.nonce ∧
      sb0.txn.memo = bargs0.memo) ∧
    (res0.signedTxn.txn.payments = [d0].map fun d =>
      { payee := Address.fromB58 d.payee
        amount := d.balanceAmount.integerBalance
        memo := envOk.sdk.encodeMemoString d.memo }) := by
  have h := C2_forwarding envOk bargs0 [d0] kp0 sb0 res0 "current-b58"
  exact ⟨h.1 rfl rfl, h.2.1 rfl⟩

/-- C3: the claim says all three helpers perform the same step sequence
fetch-keypair / fetch-account / construct / sign.  Counterexample: on a
fully successful environment `makeBurnTxn` never fetches account state and
`calculatePaymentTxnFee` neither fetches a keypair nor signs, so neither
performs that sequence. -/
theorem C3_counterexample :
    (makeBurnTxn envOk bargs0).1 ≠
      [Step.fetchKeypair, Step.fetchAccount, Step.constructTxn, Step.sign] ∧
    (calculatePaymentTxnFee envOk []).1 ≠
      [Step.fetchKeypair, Step.fetchAccount, Step.constructTxn, Step.sign] := by
  refine ⟨?_, ?_⟩ <;> decide

/-- C3 (amended): the exact step sequences.  `makePaymentTxn` alone
performs fetch-keypair / fetch-account / construct / sign; `makeBurnTxn`
fetches a keypair, constructs and signs without any account fetch (its
nonce is a caller argument); `calculatePaymentTxnFee` only constructs a
transaction, fetching no keypair and signing nothing. -/
theorem C3_step_sequences (env : Env) (bargs : BurnArgs) (details : List SendDetails) :
    (makeBurnTxn env bargs).1 =
      (if env.getKeypair.isSome then [Step.fetchKeypair, Step.constructTxn, Step.sign]
       else [Step.fetchKeypair]) ∧
    (makePaymentTxn env details).1 =
      (if env.getKeypair.isSome then
         if (speculativeNonceOf env.freshAccountData).isSome then
           [Step.fetchKeypair, Step.fetchAccount, Step.constructTxn, Step.sign]
         else [Step.fetchKeypair, Step.fetchAccount]
       else [Step.fetchKeypair]) ∧
    (calculatePaymentTxnFee env details).1 =
      (if currentAccountUnset env then [] else [Step.constructTxn]) := by
  refine ⟨?_, ?_, ?_⟩
  · cases hk : env.getKeypair <;> simp [makeBurnTxn, hk]
  · cases hk : env.getKeypair <;>
      cases hn : speculativeNonceOf env.freshAccountData <;>
        simp [makePaymentTxn, hk, hn]
  · cases hc : env.currentAccount with
    | none => simp [calculatePaymentTxnFee, hc, currentAccountUnset]
    | some a =>
      simp only [calculatePaymentTxnFee, hc, currentAccountUnset]
      split <;> simp_all

/-- C4: on every successful `makePaymentTxn` call the returned partial
payment record mirrors the signed transaction returned alongside it: its
type, payments (payee as b58 string, memo, amount), payer, nonce, and fee
equal the corresponding fields of the signed transaction. -/
theorem C4_partial_mirrors_signed (env : Env) (details : List SendDetails)
    (r : PaymentTxnResult) (hok : (makePaymentTxn env details).2 = Except.ok r) :
    r.txnJson.type = r.signedTxn.txn.type ∧
    r.txnJson.payments = r.signedTxn.txn.payments.map (fun p =>
      { payee := p.payee.b58, memo := p.memo, amount := p.amount }) ∧
    r.txnJson.payer = r.signedTxn.txn.payer.map Address.b58 ∧
    r.txnJson.nonce = r.signedTxn.txn.nonce ∧
    r.txnJson.fee = env.sdk.paymentFee r.signedTxn.txn := by
  cases hk : env.getKeypair with
  | none => rw [makePaymentTxn, hk] at hok; exact absurd hok (by simp)
  | some keypair =>
    cases hn : speculativeNonceOf env.freshAccountData with
    | none => rw [makePaymentTxn, hk, hn] at hok; exact absurd hok (by simp)
    | some n =>
      rw [makePaymentTxn, hk, hn] at hok
      simp only [Except.ok.injEq] at hok
      subst hok
      exact ⟨rfl, rfl, rfl, rfl, rfl⟩

/-- C4 witness: the record returned by a concrete successful call mirrors
its signed transaction. -/
theorem C4_witness :
    res0.txnJson.type = res0.signedTxn.txn.type ∧
    res0.txnJson.payments = res0.signedTxn.txn.payments.map (fun p =>
      { payee := p.payee.b58, memo := p.memo, amount := p.amount }) ∧
    res0.txnJson.payer = res0.signedTxn.txn.payer.map Address.b58 ∧
    res0.txnJson.nonce = res0.signedTxn.txn.nonce ∧
    res0.txnJson.fee = envOk.sdk.paymentFee res0.signedTxn.txn :=
  C4_partial_mirrors_signed envOk [d0] res0 rfl

/-- C5: with a keypair available, `makePaymentTxn` throws exactly when the
freshly fetched speculative nonce is not a number, and when it is the
number `n` the constructed transaction's nonce is `n + 1`. -/
theorem C5_nonce_from_account (env : Env) (details : List SendDetails)
    (kp : Keypair) (hk : env.getKeypair = some kp) :
    (exceptIsError (makePaymentTxn env details).2 = true ↔
      speculativeNonceOf env.freshAccountData = none) ∧
    ∀ n, speculativeNonceOf env.freshAccountData = some n →
      (makePaymentTxn env details).2.map (fun r => r.signedTxn.txn.nonce) =
        Except.ok (some (n + 1)) := by
  refine ⟨?_, ?_⟩
  · cases hn : speculativeNonceOf env.freshAccountData <;>
      simp [makePaymentTxn, hk, hn, exceptIsError]
  · intro n hn
    simp [makePaymentTxn, hk, hn, Except.map]

/-- C5 witness: on a concrete environment with keypair and speculative
nonce 5 the call does not throw and the constructed nonce is 6. -/
theorem C5_witness :
    (exceptIsError (makePaymentTxn envOk [d0]).2 = true ↔
      speculativeNonceOf envOk.freshAccountData = none) ∧
    (makePaymentTxn envOk [d0]).2.map (fun r => r.signedTxn.txn.nonce) =
      Except.ok (some 6) :=
  ⟨(C5_nonce_from_account envOk [d0] kp0 rfl).1,
   (C5_nonce_from_account envOk [d0] kp0 rfl).2 5 rfl⟩

/-- C6: in both `makePaymentTxn` (on success) and the fee-estimate
transaction of `calculatePaymentTxnFee`, the memo of every constructed
payment is the `encodeMemoString` encoding of the corresponding
user-supplied memo string. -/
theorem C6_memo_encoding (env : Env) (details : List SendDetails)
    (r : PaymentTxnResult) (addr : String) :
    ((makePaymentTxn env details).2 = Except.ok r →
      r.signedTxn.txn.payments.map Payment.memo =
        details.map fun d => env.sdk.encodeMemoString d.memo) ∧
    (feeTxnOf env.sdk env.accountData addr details).payments.map Payment.memo =
      details.map fun d => env.sdk.encodeMemoString d.memo := by
  refine ⟨?_, ?_⟩
  · intro hok
    cases hk : env.getKeypair with
    | none => rw [makePaymentTxn, hk] at hok; exact absurd hok (by simp)
    | some keypair =>
      cases hn : speculativeNonceOf env.freshAccountData with
      | none => rw [makePaymentTxn, hk, hn] at hok; exact absurd hok (by simp)
      | some n =>
        rw [makePaymentTxn, hk, hn] at hok
        simp only [Except.ok.injEq] at hok
        subst hok
        simp only [List.map_map]
        rfl
  · simp only [feeTxnOf, List.map_map]
    rfl

/-- C6 witness: memo encoding holds on a concrete successful payment call
and a concrete fee-estimate transaction. -/
theorem C6_witness :
    res0.signedTxn.txn.payments.map Payment.memo =
      [d0].map (fun d => envOk.sdk.encodeMemoString d.memo) ∧
    (feeTxnOf envOk.sdk envOk.accountData "current-b58" [d0]).payments.map Payment.memo =
      [d0].map (fun d => envOk.sdk.encodeMemoString d.memo) :=
  ⟨(C6_memo_encoding envOk [d0] res0 "current-b58").1 rfl,
   (C6_memo_encoding envOk [d0] res0 "current-b58").2⟩

/-- C7: when `getKeypair` yields nothing, `makeBurnTxn` and
`makePaymentTxn` return the `'missing keypair'` error having performed
only the keypair fetch — no account fetch, no transaction construction,
no signing — and the error is the operation's entire result (no retry or
recovery). -/
theorem C7_missing_keypair_short_circuit (env : Env) (bargs : BurnArgs)
    (details : List SendDetails) (hk : env.getKeypair = none) :
    makeBurnTxn env bargs = ([Step.fetchKeypair], Except.error "missing keypair") ∧
    makePaymentTxn env details = ([Step.fetchKeypair], Except.error "missing keypair") := by
  rw [makeBurnTxn, makePaymentTxn, hk]
  exact ⟨rfl, rfl⟩

/-- C7 witness: the short-circuit on a concrete keypair-less environment. -/
theorem C7_witness :
    makeBurnTxn envNoKp bargs0 = ([Step.fetchKeypair], Except.error "missing keypair") ∧
    makePaymentTxn envNoKp [d0] = ([Step.fetchKeypair], Except.error "missing keypair") :=
  C7_missing_keypair_short_circuit envNoKp bargs0 [d0] rfl

/-- C8: `calculatePaymentTxnFee` throws exactly when the current account
address is unset (never for missing account data); an absent cached
account nonce defaults to 0, making the fee-estimate nonce 1; and when
the SDK yields no fee the result is a balance of 0 data credits. -/
theorem C8_fee_defaults (env : Env) (details : List SendDetails) (addr : String) :
    exceptIsError (calculatePaymentTxnFee env details).2 = currentAccountUnset env ∧
    (cachedNonceOf env.accountData = none →
      (feeTxnOf env.sdk env.accountData addr details).nonce = some 1) ∧
    (∀ a, env.currentAccount = some a → (a.address == "") = false →
      env.sdk.paymentFee (feeTxnOf env.sdk env.accountData a.address details) = none →
      (calculatePaymentTxnFee env details).2 = Except.ok { integerBalance := 0 }) := by
  refine ⟨?_, ?_, ?_⟩
  · cases hc : env.currentAccount with
    | none => simp [calculatePaymentTxnFee, hc, currentAccountUnset, exceptIsError]
    | some a =>
      simp only [calculatePaymentTxnFee, hc, currentAccountUnset]
      split <;> simp_all [exceptIsError]
  · intro hn
    simp [feeTxnOf, hn]
  · intro a hc ha hfee
    simp [calculatePaymentTxnFee, hc, ha, hfee]

/-- C8 witness: a concrete unset-account call throws; a concrete call with
no cached account data builds nonce 1; a concrete call whose SDK computes
no fee returns the zero balance. -/
theorem C8_witness :
    exceptIsError (calculatePaymentTxnFee envNoCurrent []).2 =
      currentAccountUnset envNoCurrent ∧
    (feeTxnOf envNoCache.sdk envNoCache.accountData "current-b58" []).nonce = some 1 ∧
    (calculatePaymentTxnFee envNoFee [d0]).2 = Except.ok { integerBalance := 0 } :=
  ⟨(C8_fee_defaults envNoCurrent [] "current-b58").1,
   (C8_fee_defaults envNoCache [] "current-b58").2.1 rfl,
   (C8_fee_defaults envNoFee [d0] "current-b58").2.2 { address := "current-b58" } rfl rfl rfl⟩

/-- C9: the fee-estimate transaction replaces every empty or invalid payee
string with the dummy `EMPTY_B58_ADDRESS`, while `makePaymentTxn` performs
no substitution and decodes every payee string with `Address.fromB58`. -/
theorem C9_payee_substitution (env : Env) (details : List SendDetails)
    (addr : String) (r : PaymentTxnResult) :
    (feeTxnOf env.sdk env.accountData addr details).payments.map Payment.payee =
      details.map (fun d =>
        if d.payee != "" && env.sdk.isValid d.payee then Address.fromB58 d.payee
        else EMPTY_B58_ADDRESS) ∧
    ((makePaymentTxn env details).2 = Except.ok r →
      r.signedTxn.txn.payments.map Payment.payee =
        details.map fun d => Address.fromB58 d.payee) := by
  refine ⟨?_, ?_⟩
  · simp only [feeTxnOf, List.map_map]
    rfl
  · intro hok
    cases hk : env.getKeypair with
    | none => rw [makePaymentTxn, hk] at hok; exact absurd hok (by simp)
    | some keypair =>
      cases hn : speculativeNonceOf env.freshAccountData with
      | none => rw [makePaymentTxn, hk, hn] at hok; exact absurd hok (by simp)
      | some n =>
        rw [makePaymentTxn, hk, hn] at hok
        simp only [Except.ok.injEq] at hok
        subst hok
        simp only [List.map_map]
        rfl

/-- C9 witness: on concrete details containing an empty payee, the
fee-estimate transaction substitutes the dummy address while the payment
transaction decodes the empty string as given. -/
theorem C9_witness :
    (feeTxnOf envOk.sdk envOk.accountData "current-b58" [d0, dEmpty]).payments.map
        Payment.payee =
      [d0, dEmpty].map (fun d =>
        if d.payee != "" && envOk.sdk.isValid d.payee then Address.fromB58 d.payee
        else EMPTY_B58_ADDRESS) ∧
    res2.signedTxn.txn.payments.map Payment.payee =
      [d0, dEmpty].map (fun d => Address.fromB58 d.payee) :=
  ⟨(C9_payee_substitution envOk [d0, dEmpty] "current-b58" res2).1,
   (C9_payee_substitution envOk [d0, dEmpty] "current-b58" res2).2 rfl⟩

/-- C10: a TESTNET netType takes precedence over every other input
(`'lividBrown'` when muted, `'testnet'` otherwise); otherwise a
`'solana'` l1Network yields `'solanaPurple'` regardless of defaultColor;
and when neither branch fires and no defaultColor is given the hook
returns nothing. -/
theorem C10_network_color (l1 : String) (dc : Option String)
    (muted : Option Bool) (nt : Option NetType) :
    useNetworkColor l1 (some NetType.testnet) dc muted =
      (if muted = some true then some "lividBrown" else some "testnet") ∧
    (nt ≠ some NetType.testnet →
      useNetworkColor "solana" nt dc muted = some "solanaPurple") ∧
    (nt ≠ some NetType.testnet → l1 ≠ "solana" →
      useNetworkColor l1 nt none muted = none) := by
  refine ⟨?_, ?_, ?_⟩
  · cases muted with
    | none => simp [useNetworkColor]
    | some b => cases b <;> simp [useNetworkColor]
  · intro h
    simp [useNetworkColor, h]
  · intro h hl
    simp [useNetworkColor, h, hl]

/-- C10 witness: the three branches at concrete inputs. -/
theorem C10_witness :
    useNetworkColor "helium" (some NetType.testnet) (some "blue") (some true) =
      some "lividBrown" ∧
    useNetworkColor "solana" (some NetType.mainnet) (some "blue") none =
      some "solanaPurple" ∧
    useNetworkColor "helium" none none none = none := by
  refine ⟨?_, ?_, ?_⟩
  · have h := (C10_network_color "helium" (some "blue") (some true) none).1
    simpa using h
  · exact (C10_network_color "helium" (some "blue") none (some NetType.mainnet)).2.1
      (by decide)
  · exact (C10_network_color "helium" none none none).2.2 (by decide) (by decide)
